import Mathlib

/-
  Verification of the Flower task-execution pipeline core.

  Shallow embedding of:
  - the Message/Metadata data model and reply validation
    (flwr.client.message_handler.message_handler, pinned by its test file
    src/py/flwr/client/message_handler/message_handler_test.py);
  - the legacy client adapter (handle_legacy_message_from_msgtype);
  - the fixed-clipping mod (src/py/flwr/client/mod/centraldp_mods.py);
  - RayBackend resource validation and process_message error handling
    (src/py/flwr/server/superlink/fleet/vce/backend/raybackend.py).

  Python machine-level details are embedded as follows: Python int is Lean
  Int (arbitrary precision in both), Python float appears only as an inert
  scalar (no float arithmetic occurs in the embedded code paths), Python
  dicts used as configuration maps are association lists, and raised
  exceptions are values of an error type returned through Except.
-/

namespace Flwr

/-- Python scalar configuration/property values (flwr typing.Scalar).
Floats are carried as rationals: the embedded code never performs float
arithmetic on them, it only stores, compares and type-tests them. -/
inductive Scalar where
  | int (n : Int)
  | float (q : Rat)
  | str (s : String)
  | bool (b : Bool)
deriving DecidableEq, Repr

/-- A Python `Dict[str, Scalar]` (configs, properties, metrics). -/
abbrev Properties := List (String × Scalar)

/-- Status codes (flwr.common.typing.Code). -/
inductive Code where
  | OK
  | GET_PROPERTIES_NOT_IMPLEMENTED
  | GET_PARAMETERS_NOT_IMPLEMENTED
  | FIT_NOT_IMPLEMENTED
  | EVALUATE_NOT_IMPLEMENTED
deriving DecidableEq, Repr

/-- Client status (flwr.common.typing.Status). -/
structure Status where
  code : Code
  message : String
deriving DecidableEq, Repr

/-- Serialized model parameters (flwr.common.typing.Parameters):
a list of byte tensors plus a tensor-type tag. -/
structure Parameters where
  tensors : List (List Nat)
  tensor_type : String
deriving DecidableEq, Repr

/-- flwr.common.typing.GetPropertiesIns. -/
structure GetPropertiesIns where
  config : Properties
deriving DecidableEq, Repr

/-- flwr.common.typing.GetPropertiesRes. -/
structure GetPropertiesRes where
  status : Status
  properties : Properties
deriving DecidableEq, Repr

/-- flwr.common.typing.GetParametersIns. -/
structure GetParametersIns where
  config : Properties
deriving DecidableEq, Repr

/-- flwr.common.typing.GetParametersRes. -/
structure GetParametersRes where
  status : Status
  parameters : Parameters
deriving DecidableEq, Repr

/-- flwr.common.typing.FitIns. -/
structure FitIns where
  parameters : Parameters
  config : Properties
deriving DecidableEq, Repr

/-- flwr.common.typing.FitRes. -/
structure FitRes where
  status : Status
  parameters : Parameters
  num_examples : Nat
  metrics : Properties
deriving DecidableEq, Repr

/-- flwr.common.typing.EvaluateIns. -/
structure EvaluateIns where
  parameters : Parameters
  config : Properties
deriving DecidableEq, Repr

/-- flwr.common.typing.EvaluateRes; the loss is carried inertly as a
rational (no arithmetic is performed on it in the embedded code). -/
structure EvaluateRes where
  status : Status
  loss : Rat
  num_examples : Nat
  metrics : Properties
deriving DecidableEq, Repr

/-- The structured content payload of a Message (flwr RecordSet).
The pipeline passes it through unread; the task-specific compatibility
converters of flwr.common.recordset_compat (external collaborators, spec
section 3) are embedded as the injective constructors below, so that
`x_to_recordset` is a constructor and `recordset_to_x` its partial
inverse. -/
inductive RecordSet where
  | empty
  | gpIns (ins : GetPropertiesIns)
  | gpRes (res : GetPropertiesRes)
  | gparamsIns (ins : GetParametersIns)
  | gparamsRes (res : GetParametersRes)
  | fitInsRec (ins : FitIns)
  | fitResRec (res : FitRes)
  | evalInsRec (ins : EvaluateIns)
  | evalResRec (res : EvaluateRes)
deriving DecidableEq, Repr

/-- compat.getpropertiesins_to_recordset. -/
def getpropertiesins_to_recordset (ins : GetPropertiesIns) : RecordSet :=
  .gpIns ins

/-- compat.getpropertiesres_to_recordset. -/
def getpropertiesres_to_recordset (res : GetPropertiesRes) : RecordSet :=
  .gpRes res

/-- compat.recordset_to_getpropertiesins; none models the exception the
converter raises on a record set that does not hold such a payload. -/
def recordset_to_getpropertiesins : RecordSet → Option GetPropertiesIns
  | .gpIns ins => some ins
  | _ => none

/-- compat.getparametersres_to_recordset. -/
def getparametersres_to_recordset (res : GetParametersRes) : RecordSet :=
  .gparamsRes res

/-- compat.recordset_to_getparametersins. -/
def recordset_to_getparametersins : RecordSet → Option GetParametersIns
  | .gparamsIns ins => some ins
  | _ => none

/-- compat.recordset_to_fitins; the keep_input flag of the Python converter
selects whether the input records stay in the record set, which is
irrelevant on an immutable value and kept only for signature fidelity. -/
def recordset_to_fitins (rs : RecordSet) (_keep_input : Bool) : Option FitIns :=
  match rs with
  | .fitInsRec ins => some ins
  | _ => none

/-- compat.fitres_to_recordset. -/
def fitres_to_recordset (res : FitRes) (_keep_input : Bool) : RecordSet :=
  .fitResRec res

/-- compat.recordset_to_fitres. -/
def recordset_to_fitres (rs : RecordSet) (_keep_input : Bool) : Option FitRes :=
  match rs with
  | .fitResRec res => some res
  | _ => none

/-- compat.recordset_to_evaluateins. -/
def recordset_to_evaluateins (rs : RecordSet) (_keep_input : Bool) : Option EvaluateIns :=
  match rs with
  | .evalInsRec ins => some ins
  | _ => none

/-- compat.evaluateres_to_recordset. -/
def evaluateres_to_recordset (res : EvaluateRes) : RecordSet :=
  .evalResRec res

/-- Message metadata (flwr.common.Metadata, spec section 3). Python int
fields are Int, string fields String; partition_id is the optional
partition-scoped field skipped by the validation mutation test. -/
structure Metadata where
  run_id : Int
  message_id : String
  src_node_id : Int
  dst_node_id : Int
  reply_to_message : String
  group_id : String
  ttl : String
  message_type : String
  partition_id : Option Int := none
deriving DecidableEq, Repr

/-- flwr.common.Message: metadata plus content payload. -/
structure Message where
  metadata : Metadata
  content : RecordSet
deriving DecidableEq, Repr

/-- flwr.common.Context: per-run mutable state threaded through execution. -/
structure Context where
  state : RecordSet
deriving DecidableEq, Repr

/-- Message-type constants (flwr.common.constant). -/
def MESSAGE_TYPE_GET_PROPERTIES : String := "get_properties"

/-- Message-type constant for the get-parameters task. -/
def MESSAGE_TYPE_GET_PARAMETERS : String := "get_parameters"

/-- Message-type constant for the fit task. -/
def MESSAGE_TYPE_FIT : String := "fit"

/-- Message-type constant for the evaluate task. -/
def MESSAGE_TYPE_EVALUATE : String := "evaluate"

/-- Modelled from the spec: `validate_out_message` of
flwr.client.message_handler.message_handler is absent from the provided
sources (only its test file is present). Embedded from spec sections 3
and 4.1 — the reply-correlation invariant (run_id echoed, src/dst swapped,
reply_to_message equal to the message_id of the request, group_id copied) with
ttl and the partition-scoped field excluded, the message_id of the candidate
required to be still unset (empty: it is assigned downstream by the
transport, spec sections 3 and 4.3), and the message_type preserved —
with the exact field set pinned down by the assertions of
TestMessageValidation in message_handler_test.py (mutating any field
other than ttl and partition_id, message_id and message_type included,
must make validation fail). -/
def validate_out_message (out_message : Message) (in_message_metadata : Metadata) : Bool :=
  let o := out_message.metadata
  let i := in_message_metadata
  o.run_id == i.run_id
    && o.message_id == ""
    && o.src_node_id == i.dst_node_id
    && o.dst_node_id == i.src_node_id
    && o.reply_to_message == i.message_id
    && o.group_id == i.group_id
    && o.message_type == i.message_type

/-- The metadata of the expected valid reply to a request with metadata q
(the valid_out_metadata of the validation test): run_id, group_id and
message_type echoed, src/dst swapped, reply_to_message set to the
message_id of the request, message_id left empty; ttl and partition_id are
free (excluded from validation). -/
def expected_reply_metadata (q : Metadata) (ttl : String) (pid : Option Int) : Metadata :=
  { run_id := q.run_id
    message_id := ""
    src_node_id := q.dst_node_id
    dst_node_id := q.src_node_id
    reply_to_message := q.message_id
    group_id := q.group_id
    ttl := ttl
    message_type := q.message_type
    partition_id := pid }

/-- The inbound request metadata used by the validation test. -/
def testInMetadata : Metadata :=
  { run_id := 123
    message_id := "qwerty"
    src_node_id := 10
    dst_node_id := 20
    reply_to_message := ""
    group_id := "group1"
    ttl := "60"
    message_type := "mock" }

/-- Python exceptions raised by the embedded code, returned through
Except instead of unwinding. -/
inductive PyError where
  | keyError (msg : String)
  | valueError (msg : String)
  | loadClientAppError (msg : String)
  | other (msg : String)
deriving DecidableEq, Repr

/-- A legacy client as an explicit capability descriptor (spec section 9
design note replacing the duck-typed has-method check of flwr.client.Client):
get_properties is the optional capability, the other three are mandatory
(spec section 4.3 dispatch table). -/
structure LegacyClient where
  get_properties : Option (GetPropertiesIns → GetPropertiesRes)
  get_parameters : GetParametersIns → GetParametersRes
  fit : FitIns → FitRes
  evaluate : EvaluateIns → EvaluateRes

/-- A factory producing a client from a client id string
(flwr.client.typing.ClientFn). -/
abbrev ClientFn := String → LegacyClient

/-- Modelled from the spec: Message.create_reply of flwr.common.message is
absent from the provided sources. Spec section 4.3: the reply metadata
swaps src/dst, copies run_id and group_id, sets reply_to_message to the
message_id of the request and leaves message_id empty for the transport to
assign; message_type and partition_id are carried over and ttl is the
given value. -/
def Message.create_reply (msg : Message) (content : RecordSet) (ttl : String) : Message :=
  { metadata :=
      { run_id := msg.metadata.run_id
        message_id := ""
        src_node_id := msg.metadata.dst_node_id
        dst_node_id := msg.metadata.src_node_id
        reply_to_message := msg.metadata.message_id
        group_id := msg.metadata.group_id
        ttl := ttl
        message_type := msg.metadata.message_type
        partition_id := msg.metadata.partition_id }
    content := content }

/-- Modelled from the spec: maybe_call_get_properties of
flwr.client.client is absent from the provided sources. Spec sections 4.3
and 7: if the client does not implement the queried optional capability,
synthesize a default result carrying the distinguished not-implemented
status code and an explanatory message without invoking the client;
otherwise invoke the capability. The message text of the default is the one
asserted by test_client_without_get_properties. -/
def maybe_call_get_properties (client : LegacyClient) (ins : GetPropertiesIns) : GetPropertiesRes :=
  match client.get_properties with
  | none =>
      { status :=
          { code := .GET_PROPERTIES_NOT_IMPLEMENTED
            message := "Client does not implement `get_properties`" }
        properties := [] }
  | some f => f ins

/-- Modelled from the spec: handle_legacy_message_from_msgtype of
flwr.client.message_handler.message_handler is absent from the provided
sources (only its test file is present). Spec section 4.3: build the
client from the factory, dispatch on message_type, decode the content via
the compatibility converter (none models the exception raised when the
content does not decode, or the message_type is unknown), invoke the
capability (through the optional-capability guard for get_properties;
the other three capabilities are mandatory), encode the result, and
build the reply via create_reply with an empty ttl. -/
def handle_legacy_message_from_msgtype (client_fn : ClientFn) (message : Message) (_context : Context) : Option Message :=
  let client := client_fn "-1"
  let mt := message.metadata.message_type
  if mt = MESSAGE_TYPE_GET_PROPERTIES then
    match recordset_to_getpropertiesins message.content with
    | none => none
    | some ins =>
        some (message.create_reply
          (getpropertiesres_to_recordset (maybe_call_get_properties client ins)) "")
  else if mt = MESSAGE_TYPE_GET_PARAMETERS then
    match recordset_to_getparametersins message.content with
    | none => none
    | some ins =>
        some (message.create_reply
          (getparametersres_to_recordset (client.get_parameters ins)) "")
  else if mt = MESSAGE_TYPE_FIT then
    match recordset_to_fitins message.content false with
    | none => none
    | some ins =>
        some (message.create_reply
          (fitres_to_recordset (client.fit ins) false) "")
  else if mt = MESSAGE_TYPE_EVALUATE then
    match recordset_to_evaluateins message.content false with
    | none => none
    | some ins =>
        some (message.create_reply
          (evaluateres_to_recordset (client.evaluate ins)) "")
  else
    none

/-- flwr.client.typing.ClientAppCallable: the terminal task callable (and
the type of the remainder of a mod chain); errors it raises travel in
Except. -/
abbrev ClientAppCallable := Message → Context → Except PyError Message

/-- A mod: (message, context, next) to message (spec section 4.2). -/
abbrev Mod := Message → Context → ClientAppCallable → Except PyError Message

/-- Modelled from the spec: make_ffn of flwr.client.mod.utils is absent
from the provided sources (only re-exported by mod/__init__.py). Spec
sections 4.2 and 6: the single composition entry point folding the
ordered mod list over the terminal callable, so that chain [m1, ..., mn]
over f runs m1 outermost. -/
def make_ffn (ffn : ClientAppCallable) (mods : List Mod) : ClientAppCallable :=
  mods.foldr (fun mod acc => fun message context => mod message context acc) ffn

/-- flwr.common.differential_privacy_constants.KEY_CLIPPING_NORM. -/
def KEY_CLIPPING_NORM : String := "clipping_norm"

/-- The KeyError text raised by fixedclipping_mod when the clipping norm
is missing, assembled exactly as the f-string of the source. -/
def clippingNormKeyErrorMsg : String :=
  "The " ++ KEY_CLIPPING_NORM ++ " value is not supplied by the " ++
    "DifferentialPrivacyClientSideFixedClipping wrapper at" ++ " the server side."

/-- fixedclipping_mod (src/py/flwr/client/mod/centraldp_mods.py). The
numerical clipping collaborators — parameters_to_ndarrays,
compute_clip_model_update (which rewrites the client update in place) and
ndarrays_to_parameters, together with the float() conversion of the
clipping-norm scalar — are external to this core by spec section 1 and are
abstracted as the `clip` argument mapping (client update, server
parameters, clipping-norm scalar) to the clipped client update. Control
flow mirrors the source: non-fit messages are passed through untouched;
a fit message whose config lacks the clipping-norm key raises KeyError
before `call_next` is invoked; otherwise the inner app runs and the
parameters of the returned fit result are replaced by the clipped update. -/
def fixedclipping_mod (clip : Parameters → Parameters → Scalar → Parameters)
    (msg : Message) (ctxt : Context) (call_next : ClientAppCallable) :
    Except PyError Message :=
  if msg.metadata.message_type ≠ MESSAGE_TYPE_FIT then
    call_next msg ctxt
  else
    match recordset_to_fitins msg.content true with
    | none => .error (.valueError "recordset does not hold a FitIns")
    | some fit_ins =>
      match fit_ins.config.lookup KEY_CLIPPING_NORM with
      | none => .error (.keyError clippingNormKeyErrorMsg)
      | some clipping_norm =>
        let server_to_client_params := fit_ins.parameters
        match call_next msg ctxt with
        | .error e => .error e
        | .ok out_msg =>
          match recordset_to_fitres out_msg.content true with
          | none => .error (.valueError "recordset does not hold a FitRes")
          | some fit_res =>
            let client_to_server_params :=
              clip fit_res.parameters server_to_client_params clipping_norm
            let fit_res := { fit_res with parameters := client_to_server_params }
            .ok { out_msg with content := fitres_to_recordset fit_res true }

/-- A Python value as it appears in the backend resource-request map
(RayBackend keys and values may a priori be of any type; isinstance
checks sort them out). -/
inductive PyVal where
  | vInt (n : Int)
  | vFloat (q : Rat)
  | vBool (b : Bool)
  | vStr (s : String)
  | vNone
deriving DecidableEq, Repr

/-- Python isinstance(x, str). -/
def isinstanceStr : PyVal → Bool
  | .vStr _ => true
  | _ => false

/-- Python isinstance(x, (int, float)); bool is a subclass of int in
Python, so booleans pass this check. -/
def isinstanceIntOrFloat : PyVal → Bool
  | .vInt _ => true
  | .vFloat _ => true
  | .vBool _ => true
  | _ => false

/-- The default client resources applied by RayBackend when the caller
declares none: num_cpus = 2, num_gpus = 0.0. -/
def default_client_resources : List (PyVal × PyVal) :=
  [(.vStr "num_cpus", .vInt 2), (.vStr "num_gpus", .vFloat 0)]

/-- The per-entry loop of RayBackend._validate_client_resources: raise
ValueError at the first key that is not a str or value that is not an
int/float, otherwise rebuild the map entry by entry. -/
def validate_client_resources_entries : List (PyVal × PyVal) → Except PyError (List (PyVal × PyVal))
  | [] => .ok []
  | (k, v) :: rest =>
    if ¬ isinstanceStr k then
      .error (.valueError "client resources keys are expected to be `str`")
    else if ¬ isinstanceIntOrFloat v then
      .error (.valueError "client resources are expected to be of type (int, float)")
    else
      match validate_client_resources_entries rest with
      | .error e => .error e
      | .ok r => .ok ((k, v) :: r)

/-- RayBackend._validate_client_resources
(src/py/flwr/server/superlink/fleet/vce/backend/raybackend.py lines
91-118). The argument is config.get("client_resources"): none when the
key is absent; by Python truthiness an absent or empty map takes the
default branch, a non-empty map is checked entry by entry. -/
def validate_client_resources (client_resources_config : Option (List (PyVal × PyVal))) :
    Except PyError (List (PyVal × PyVal)) :=
  match client_resources_config with
  | some entries =>
      if entries.isEmpty then .ok default_client_resources
      else validate_client_resources_entries entries
  | none => .ok default_client_resources

/-- Modelled from the spec: BasicActorPool of
flwr.simulation.ray_transport.ray_actor is absent from the provided
sources; spec section 4.4 describes the pool as holding a number of
workers, observable through num_workers. Only the actor count is needed
by the claims. -/
structure RayBackendState where
  pool_num_actors : Nat
deriving DecidableEq, Repr

/-- RayBackend.num_workers: current pool size (pool.num_actors). -/
def num_workers (s : RayBackendState) : Nat :=
  s.pool_num_actors

/-- Modelled from the spec: RayBackend.terminate calls
pool.terminate_all_actors() then ray.shutdown(); per spec section 4.4
terminate stops every worker and releases pool resources, so afterwards
the pool holds no actors. -/
def terminate (s : RayBackendState) : RayBackendState :=
  { s with pool_num_actors := 0 }

/-- The outcome of the task a worker ran for process_message: either the
(out message, updated context) pair fetched from the worker, or the
exception the awaited submission raised. -/
inductive TaskOutcome where
  | ok (out : Message) (ctx : Context)
  | err (e : PyError)
deriving DecidableEq, Repr

/-- RayBackend.process_message (raybackend.py lines 134-170), with the
awaited worker execution abstracted into its outcome: on success the
result is returned and the pool is untouched (the actor goes back to the
idle set); a LoadClientAppError is caught, the whole backend is
terminated, and the same error is re-raised; any other exception
propagates uncaught, leaving the pool in place. -/
def process_message (s : RayBackendState) (outcome : TaskOutcome) :
    Except PyError (Message × Context) × RayBackendState :=
  match outcome with
  | .ok out ctx => (.ok (out, ctx), s)
  | .err e =>
    match e with
    | .loadClientAppError m => (.error (.loadClientAppError m), terminate s)
    | e => (.error e, s)

/-- The ClientWithoutProps test client: no get_properties capability,
canned OK answers for the mandatory capabilities. -/
def clientWithoutProps : LegacyClient :=
  { get_properties := none
    get_parameters := fun _ => { status := { code := .OK, message := "Success" }, parameters := { tensors := [], tensor_type := "" } }
    fit := fun _ => { status := { code := .OK, message := "Success" }, parameters := { tensors := [], tensor_type := "" }, num_examples := 1, metrics := [] }
    evaluate := fun _ => { status := { code := .OK, message := "Success" }, loss := 1, num_examples := 1, metrics := [] } }

/-- The canned get_properties answer of the ClientWithProps test client. -/
def cannedGetPropertiesRes : GetPropertiesRes :=
  { status := { code := .OK, message := "Success" }
    properties := [("str_prop", .str "val"), ("int_prop", .int 1)] }

/-- The ClientWithProps test client: clientWithoutProps plus a fixed
canned get_properties capability. -/
def clientWithProps : LegacyClient :=
  { clientWithoutProps with get_properties := some (fun _ => cannedGetPropertiesRes) }

/-- The request metadata of the adapter tests. -/
def testGetPropertiesRequestMetadata : Metadata :=
  { run_id := 123
    message_id := "7e2cc08c-69b3-4957-bbbb-1d9ae0b04d2d"
    src_node_id := 0
    dst_node_id := 1123
    reply_to_message := ""
    group_id := "some group ID"
    ttl := ""
    message_type := MESSAGE_TYPE_GET_PROPERTIES }

/-- Helper: the boolean validator accepts exactly the candidates whose
metadata satisfies the seven-field characterization. -/
lemma validate_out_message_characterization (out : Message) (q : Metadata) :
    validate_out_message out q = true ↔
      (out.metadata.run_id = q.run_id ∧
        out.metadata.message_id = "" ∧
        out.metadata.src_node_id = q.dst_node_id ∧
        out.metadata.dst_node_id = q.src_node_id ∧
        out.metadata.reply_to_message = q.message_id ∧
        out.metadata.group_id = q.group_id ∧
        out.metadata.message_type = q.message_type) := by
  simp [validate_out_message, and_assoc]

/-- C1 (amended): validate_out_message returns true iff, in addition to
the five reply-correlation equalities of the invariant (run_id echoed,
src/dst swapped, reply_to_message equal to the message_id of the request,
group_id copied), the message_id of the candidate is empty and its
message_type equals that of the request; ttl and partition_id stay
excluded from the comparison. -/
theorem validate_out_message_true_iff (out : Message) (q : Metadata) :
    validate_out_message out q = true ↔
      (out.metadata.run_id = q.run_id ∧
        out.metadata.message_id = "" ∧
        out.metadata.src_node_id = q.dst_node_id ∧
        out.metadata.dst_node_id = q.src_node_id ∧
        out.metadata.reply_to_message = q.message_id ∧
        out.metadata.group_id = q.group_id ∧
        out.metadata.message_type = q.message_type) :=
  validate_out_message_characterization out q

/-- C1 (counterexample): a candidate whose metadata satisfies all five
correlation equalities of the invariant, but whose message_id is the
non-empty string "abc", is rejected by validate_out_message — so
satisfying the five-field invariant with ttl excluded is not sufficient
for acceptance, contrary to the claimed iff. -/
theorem validate_out_message_invariant_not_sufficient :
    (({ expected_reply_metadata testInMetadata "60" none with message_id := "abc" } : Metadata).run_id = testInMetadata.run_id ∧
      ({ expected_reply_metadata testInMetadata "60" none with message_id := "abc" } : Metadata).src_node_id = testInMetadata.dst_node_id ∧
      ({ expected_reply_metadata testInMetadata "60" none with message_id := "abc" } : Metadata).dst_node_id = testInMetadata.src_node_id ∧
      ({ expected_reply_metadata testInMetadata "60" none with message_id := "abc" } : Metadata).reply_to_message = testInMetadata.message_id ∧
      ({ expected_reply_metadata testInMetadata "60" none with message_id := "abc" } : Metadata).group_id = testInMetadata.group_id) ∧
    validate_out_message
      ⟨{ expected_reply_metadata testInMetadata "60" none with message_id := "abc" }, .empty⟩
      testInMetadata = false := by
  decide

/-- C2: for every request metadata q, rewriting any single field of the
expected valid reply metadata to a different value — ttl and the
partition-scoped field excepted — makes validate_out_message reject the
mutated reply. -/
theorem validate_out_message_single_field_mutation_false
    (q : Metadata) (ttl : String) (pid : Option Int) (c : RecordSet) :
    (∀ v : Int, v ≠ q.run_id →
      validate_out_message ⟨{ expected_reply_metadata q ttl pid with run_id := v }, c⟩ q = false) ∧
    (∀ v : String, v ≠ "" →
      validate_out_message ⟨{ expected_reply_metadata q ttl pid with message_id := v }, c⟩ q = false) ∧
    (∀ v : Int, v ≠ q.dst_node_id →
      validate_out_message ⟨{ expected_reply_metadata q ttl pid with src_node_id := v }, c⟩ q = false) ∧
    (∀ v : Int, v ≠ q.src_node_id →
      validate_out_message ⟨{ expected_reply_metadata q ttl pid with dst_node_id := v }, c⟩ q = false) ∧
    (∀ v : String, v ≠ q.message_id →
      validate_out_message ⟨{ expected_reply_metadata q ttl pid with reply_to_message := v }, c⟩ q = false) ∧
    (∀ v : String, v ≠ q.group_id →
      validate_out_message ⟨{ expected_reply_metadata q ttl pid with group_id := v }, c⟩ q = false) ∧
    (∀ v : String, v ≠ q.message_type →
      validate_out_message ⟨{ expected_reply_metadata q ttl pid with message_type := v }, c⟩ q = false) := by
  refine ⟨?_, ?_, ?_, ?_, ?_, ?_, ?_⟩ <;> intro v hv <;>
    simp [validate_out_message, expected_reply_metadata, hv]

/-- C2 (witness): mutating the run_id of the expected reply to the test
request to 999 makes validation fail. -/
theorem validate_out_message_single_field_mutation_false_witness :
    validate_out_message
      ⟨{ expected_reply_metadata testInMetadata "60" none with run_id := 999 }, .empty⟩
      testInMetadata = false :=
  (validate_out_message_single_field_mutation_false testInMetadata "60" none .empty).1 999 (by decide)

/-- C3 (counterexample): the result of validate_out_message does depend
on the message_id of the candidate — the expected reply to the test
request is accepted with its empty message_id, and rejected after only
its message_id is changed to "999". -/
theorem validate_out_message_depends_on_message_id :
    validate_out_message
      ⟨expected_reply_metadata testInMetadata "60" none, .empty⟩ testInMetadata = true ∧
    validate_out_message
      ⟨{ expected_reply_metadata testInMetadata "60" none with message_id := "999" }, .empty⟩
      testInMetadata = false := by
  decide

/-- C3 (amended): validate_out_message depends on the message_id of the
candidate only through whether it is empty — it rejects every candidate
whose message_id is non-empty, because a reply leaves message_id unset
for the transport to assign downstream. -/
theorem validate_out_message_nonempty_message_id_false
    (out : Message) (q : Metadata) (h : out.metadata.message_id ≠ "") :
    validate_out_message out q = false := by
  simp [validate_out_message, h]

/-- C3 (witness): a candidate carrying the already-assigned message_id
"xyz" is rejected against the test request metadata. -/
theorem validate_out_message_nonempty_message_id_false_witness :
    validate_out_message
      ⟨{ expected_reply_metadata testInMetadata "60" none with message_id := "xyz" }, .empty⟩
      testInMetadata = false :=
  validate_out_message_nonempty_message_id_false
    ⟨{ expected_reply_metadata testInMetadata "60" none with message_id := "xyz" }, .empty⟩
    testInMetadata (by decide)

/-- C4: adapting a get-properties request against any client that lacks
the get_properties capability yields (without invoking the client, whose
capability slot is empty, and regardless of its other methods) a reply
whose content encodes the distinguished not-implemented status with its
explanatory message and empty properties, and whose metadata copies
run_id and group_id from the request, swaps src and dst node ids, sets
reply_to_message to the message_id of the request, and leaves message_id
empty. -/
theorem handle_get_properties_not_implemented_reply
    (client_fn : ClientFn) (q : Metadata) (ins : GetPropertiesIns) (ctx : Context)
    (hcap : (client_fn "-1").get_properties = none)
    (hmt : q.message_type = MESSAGE_TYPE_GET_PROPERTIES) :
    handle_legacy_message_from_msgtype client_fn ⟨q, getpropertiesins_to_recordset ins⟩ ctx =
      some
        { metadata :=
            { run_id := q.run_id
              message_id := ""
              src_node_id := q.dst_node_id
              dst_node_id := q.src_node_id
              reply_to_message := q.message_id
              group_id := q.group_id
              ttl := ""
              message_type := q.message_type
              partition_id := q.partition_id }
          content := getpropertiesres_to_recordset
            { status :=
                { code := .GET_PROPERTIES_NOT_IMPLEMENTED
                  message := "Client does not implement `get_properties`" }
              properties := [] } } := by
  simp [handle_legacy_message_from_msgtype, hmt, recordset_to_getpropertiesins,
    getpropertiesins_to_recordset, maybe_call_get_properties, hcap,
    Message.create_reply]

/-- C4 (witness): the reply for the test request against the
ClientWithoutProps client, evaluated concretely. -/
theorem handle_get_properties_not_implemented_reply_witness :
    handle_legacy_message_from_msgtype (fun _ => clientWithoutProps)
      ⟨testGetPropertiesRequestMetadata, getpropertiesins_to_recordset { config := [] }⟩
      ⟨.empty⟩ =
      some
        { metadata :=
            { run_id := 123
              message_id := ""
              src_node_id := 1123
              dst_node_id := 0
              reply_to_message := "7e2cc08c-69b3-4957-bbbb-1d9ae0b04d2d"
              group_id := "some group ID"
              ttl := ""
              message_type := MESSAGE_TYPE_GET_PROPERTIES }
          content := getpropertiesres_to_recordset
            { status :=
                { code := .GET_PROPERTIES_NOT_IMPLEMENTED
                  message := "Client does not implement `get_properties`" }
              properties := [] } } :=
  handle_get_properties_not_implemented_reply (fun _ => clientWithoutProps)
    testGetPropertiesRequestMetadata { config := [] } ⟨.empty⟩ rfl rfl

/-- C5: adapting a get-properties request against any client whose
get_properties capability is a fixed canned result yields a reply whose
content is exactly that canned result encoded by the compatibility
converter, and whose metadata swaps src and dst, copies run_id and
group_id, sets reply_to_message to the message_id of the request, and
leaves message_id empty. -/
theorem handle_get_properties_ok_reply
    (client_fn : ClientFn) (q : Metadata) (ins : GetPropertiesIns) (ctx : Context)
    (res : GetPropertiesRes)
    (hcap : (client_fn "-1").get_properties = some (fun _ => res))
    (hmt : q.message_type = MESSAGE_TYPE_GET_PROPERTIES) :
    handle_legacy_message_from_msgtype client_fn ⟨q, getpropertiesins_to_recordset ins⟩ ctx =
      some
        { metadata :=
            { run_id := q.run_id
              message_id := ""
              src_node_id := q.dst_node_id
              dst_node_id := q.src_node_id
              reply_to_message := q.message_id
              group_id := q.group_id
              ttl := ""
              message_type := q.message_type
              partition_id := q.partition_id }
          content := getpropertiesres_to_recordset res } := by
  simp [handle_legacy_message_from_msgtype, hmt, recordset_to_getpropertiesins,
    getpropertiesins_to_recordset, maybe_call_get_properties, hcap,
    Message.create_reply]

/-- C5 (witness): the reply for the test request against the
ClientWithProps client carries status OK with the canned properties. -/
theorem handle_get_properties_ok_reply_witness :
    handle_legacy_message_from_msgtype (fun _ => clientWithProps)
      ⟨testGetPropertiesRequestMetadata, getpropertiesins_to_recordset { config := [] }⟩
      ⟨.empty⟩ =
      some
        { metadata :=
            { run_id := 123
              message_id := ""
              src_node_id := 1123
              dst_node_id := 0
              reply_to_message := "7e2cc08c-69b3-4957-bbbb-1d9ae0b04d2d"
              group_id := "some group ID"
              ttl := ""
              message_type := MESSAGE_TYPE_GET_PROPERTIES }
          content := getpropertiesres_to_recordset
            { status := { code := .OK, message := "Success" }
              properties := [("str_prop", .str "val"), ("int_prop", .int 1)] } } :=
  handle_get_properties_ok_reply (fun _ => clientWithProps)
    testGetPropertiesRequestMetadata { config := [] } ⟨.empty⟩
    cannedGetPropertiesRes rfl rfl

/-- C6: a fit-typed message whose fit configuration lacks the
clipping-norm key makes fixedclipping_mod raise a KeyError carrying the
source text, for every inner callable (so the next callable is never
invoked), and the error propagates through the composed chain to its
caller. -/
theorem fixedclipping_mod_missing_clipping_norm_raises
    (clip : Parameters → Parameters → Scalar → Parameters)
    (q : Metadata) (content : RecordSet) (fi : FitIns) (ctx : Context)
    (app : ClientAppCallable)
    (hmt : q.message_type = MESSAGE_TYPE_FIT)
    (hdec : recordset_to_fitins content true = some fi)
    (hkey : fi.config.lookup KEY_CLIPPING_NORM = none) :
    make_ffn app [fixedclipping_mod clip] ⟨q, content⟩ ctx =
      .error (.keyError clippingNormKeyErrorMsg) := by
  simp [make_ffn, fixedclipping_mod, hmt, hdec, hkey]

/-- C6 (witness): the chain of fixedclipping_mod over an always-ok app
raises the KeyError on a concrete fit message with an empty config. -/
theorem fixedclipping_mod_missing_clipping_norm_raises_witness :
    make_ffn (fun m _ => .ok m) [fixedclipping_mod (fun p _ _ => p)]
      ⟨{ run_id := 1
         message_id := "m1"
         src_node_id := 0
         dst_node_id := 2
         reply_to_message := ""
         group_id := "g"
         ttl := ""
         message_type := MESSAGE_TYPE_FIT },
       .fitInsRec { parameters := { tensors := [], tensor_type := "" }, config := [] }⟩
      ⟨.empty⟩ =
      .error (.keyError clippingNormKeyErrorMsg) :=
  fixedclipping_mod_missing_clipping_norm_raises (fun p _ _ => p)
    { run_id := 1
      message_id := "m1"
      src_node_id := 0
      dst_node_id := 2
      reply_to_message := ""
      group_id := "g"
      ttl := ""
      message_type := MESSAGE_TYPE_FIT }
    (.fitInsRec { parameters := { tensors := [], tensor_type := "" }, config := [] })
    { parameters := { tensors := [], tensor_type := "" }, config := [] }
    ⟨.empty⟩ (fun m _ => .ok m) rfl rfl rfl

/-- C10: on any message whose message_type is not fit, fixedclipping_mod
is exactly the invocation of the next callable on the unmodified message
and context. -/
theorem fixedclipping_mod_non_fit_passthrough
    (clip : Parameters → Parameters → Scalar → Parameters)
    (msg : Message) (ctxt : Context) (call_next : ClientAppCallable)
    (h : msg.metadata.message_type ≠ MESSAGE_TYPE_FIT) :
    fixedclipping_mod clip msg ctxt call_next = call_next msg ctxt := by
  simp [fixedclipping_mod, h]

/-- C10 (witness): on the mock-typed test message, fixedclipping_mod over
an identity-ok callable returns that callable applied to the unmodified
message. -/
theorem fixedclipping_mod_non_fit_passthrough_witness :
    fixedclipping_mod (fun p _ _ => p) ⟨testInMetadata, .empty⟩ ⟨.empty⟩
      (fun m _ => .ok m) = .ok ⟨testInMetadata, .empty⟩ :=
  fixedclipping_mod_non_fit_passthrough (fun p _ _ => p)
    ⟨testInMetadata, .empty⟩ ⟨.empty⟩ (fun m _ => .ok m) (by decide)

/-- Helper: an entry list in which every key is a str and every value an
int/float is validated to itself. -/
lemma validate_entries_ok_of_wellTyped :
    ∀ entries : List (PyVal × PyVal),
      (∀ p ∈ entries, isinstanceStr p.1 = true ∧ isinstanceIntOrFloat p.2 = true) →
      validate_client_resources_entries entries = .ok entries := by
  intro entries
  induction entries with
  | nil => intro _; rfl
  | cons p rest ih =>
    intro h
    obtain ⟨k, v⟩ := p
    obtain ⟨h1, h2⟩ := h (k, v) (by simp)
    have hrest := ih (fun p hp => h p (by simp [hp]))
    simp [validate_client_resources_entries, h1, h2, hrest]

/-- Helper: the entry loop raises iff some entry has a non-str key or a
non-numeric value. -/
lemma validate_entries_error_iff :
    ∀ entries : List (PyVal × PyVal),
      (∃ e, validate_client_resources_entries entries = .error e) ↔
        ∃ p ∈ entries, isinstanceStr p.1 = false ∨ isinstanceIntOrFloat p.2 = false := by
  intro entries
  induction entries with
  | nil => simp [validate_client_resources_entries]
  | cons p rest ih =>
    obtain ⟨k, v⟩ := p
    cases h1 : isinstanceStr k with
    | false =>
      apply iff_of_true
      · exact ⟨.valueError "client resources keys are expected to be `str`",
          by simp [validate_client_resources_entries, h1]⟩
      · exact ⟨(k, v), by simp, Or.inl h1⟩
    | true =>
      cases h2 : isinstanceIntOrFloat v with
      | false =>
        apply iff_of_true
        · exact ⟨.valueError "client resources are expected to be of type (int, float)",
            by simp [validate_client_resources_entries, h1, h2]⟩
        · exact ⟨(k, v), by simp, Or.inr h2⟩
      | true =>
        have hstep : validate_client_resources_entries ((k, v) :: rest) =
            match validate_client_resources_entries rest with
            | .error e => .error e
            | .ok r => .ok ((k, v) :: r) := by
          simp [validate_client_resources_entries, h1, h2]
        cases hrest : validate_client_resources_entries rest with
        | error e =>
          apply iff_of_true
          · exact ⟨e, by rw [hstep, hrest]⟩
          · obtain ⟨p, hp, hbad⟩ := ih.mp ⟨e, hrest⟩
            exact ⟨p, List.mem_cons_of_mem _ hp, hbad⟩
        | ok r =>
          apply iff_of_false
          · rintro ⟨e, he⟩
            rw [hstep, hrest] at he
            exact Except.noConfusion he
          · rintro ⟨p, hp, hbad⟩
            rcases List.mem_cons.mp hp with heq | hmem
            · rw [heq] at hbad
              rcases hbad with hb | hb
              · rw [show ((k, v) : PyVal × PyVal).1 = k from rfl, h1] at hb
                exact Bool.noConfusion hb
              · rw [show ((k, v) : PyVal × PyVal).2 = v from rfl, h2] at hb
                exact Bool.noConfusion hb
            · obtain ⟨e, he⟩ := ih.mpr ⟨p, hmem, hbad⟩
              rw [hrest] at he
              exact Except.noConfusion he

/-- C7 (counterexample): the map assigning the negative value -1 to
num_cpus — malformed by the claim, since -1 is not a non-negative
number — raises no configuration error: it is returned unchanged, so the
code does not check values for non-negativity. -/
theorem validate_client_resources_accepts_negative :
    validate_client_resources (some [(.vStr "num_cpus", .vInt (-1))]) =
      .ok [(.vStr "num_cpus", .vInt (-1))] ∧ (-1 : Int) < 0 :=
  ⟨rfl, by decide⟩

/-- C7 (amended): on a non-empty resource-request map, validation raises
a configuration error exactly when some key is not a string or some value
is not of numeric type (int or float, Python bool counting as int);
non-negativity of values is not checked, and a non-empty well-typed map
is returned unchanged (an absent or empty map yields the documented
default instead). -/
theorem validate_client_resources_error_iff_bad_type
    (entries : List (PyVal × PyVal)) (hne : entries ≠ []) :
    ((∃ e, validate_client_resources (some entries) = .error e) ↔
      ∃ p ∈ entries, isinstanceStr p.1 = false ∨ isinstanceIntOrFloat p.2 = false) ∧
    ((∀ p ∈ entries, isinstanceStr p.1 = true ∧ isinstanceIntOrFloat p.2 = true) →
      validate_client_resources (some entries) = .ok entries) := by
  have hemp : entries.isEmpty = false := by
    cases entries with
    | nil => exact absurd rfl hne
    | cons p rest => rfl
  constructor
  · rw [show validate_client_resources (some entries) = validate_client_resources_entries entries by
      simp [validate_client_resources, hemp]]
    exact validate_entries_error_iff entries
  · intro h
    rw [show validate_client_resources (some entries) = validate_client_resources_entries entries by
      simp [validate_client_resources, hemp]]
    exact validate_entries_ok_of_wellTyped entries h

/-- C7 (witness): a map with the non-string key 3 raises, and the
well-typed map assigning 1 cpu is returned unchanged. -/
theorem validate_client_resources_error_iff_bad_type_witness :
    (∃ e, validate_client_resources (some [(.vInt 3, .vInt 1)]) = .error e) ∧
      validate_client_resources (some [(.vStr "num_cpus", .vInt 1)]) =
        .ok [(.vStr "num_cpus", .vInt 1)] :=
  ⟨(validate_client_resources_error_iff_bad_type [(.vInt 3, .vInt 1)] (by decide)).1.mpr
      ⟨(.vInt 3, .vInt 1), by decide, by decide⟩,
    (validate_client_resources_error_iff_bad_type [(.vStr "num_cpus", .vInt 1)] (by decide)).2
      (by decide)⟩

/-- C8: when the caller declares no client_resources preference — the key
absent from the backend config, or mapped to an empty (falsy) map —
validation yields the documented default of 2 compute units and 0
accelerator units: num_cpus = 2, num_gpus = 0.0. -/
theorem validate_client_resources_default :
    validate_client_resources none = .ok default_client_resources ∧
    validate_client_resources (some []) = .ok default_client_resources ∧
    default_client_resources = [(.vStr "num_cpus", .vInt 2), (.vStr "num_gpus", .vFloat 0)] :=
  ⟨rfl, rfl, rfl⟩

/-- C9: process_message re-raises to the submitter exactly the error the
worker raised; when that error is the distinguished load error the whole
pool is torn down before returning, so num_workers is 0 afterwards; for
every other error kind, and on success, the pool is left untouched. -/
theorem process_message_load_error_teardown (s : RayBackendState) (e : PyError) :
    ((process_message s (.err e)).1 = .error e) ∧
    ((∃ m, e = .loadClientAppError m) →
      num_workers (process_message s (.err e)).2 = 0) ∧
    ((∀ m, e ≠ .loadClientAppError m) → (process_message s (.err e)).2 = s) ∧
    (∀ out ctx, process_message s (.ok out ctx) = (.ok (out, ctx), s)) := by
  refine ⟨?_, ?_, ?_, ?_⟩
  · cases e <;> rfl
  · rintro ⟨m, rfl⟩
    rfl
  · intro h
    cases e with
    | loadClientAppError m => exact absurd rfl (h m)
    | keyError m => rfl
    | valueError m => rfl
    | other m => rfl
  · intro out ctx
    rfl

/-- C9 (witness): a load error on a pool of five workers empties the
pool. -/
theorem process_message_load_error_teardown_witness :
    num_workers (process_message ⟨5⟩ (.err (.loadClientAppError "load failed"))).2 = 0 :=
  (process_message_load_error_teardown ⟨5⟩ (.loadClientAppError "load failed")).2.1
    ⟨"load failed", rfl⟩

end Flwr
